import Mathlib

/-!
Verification of the video-generation frontend (form-state reconciliation,
cost estimation, prompt heuristic, generation orchestrator, route proxy).

The definitions below are a shallow embedding of the TypeScript sources:
`VideoGenerator` in src/lib/auth-client.ts and `proxy` in src/proxy.ts.
JavaScript numbers used as counts/durations are modelled as `Nat`,
monetary amounts as `ℚ`, files by their names, and absent/optional values
by `Option`.
-/

namespace VideoGen

/-- Capability set of a provider, as read by the component
(`selectedProvider.capabilities.*`).  `maxVideos = 0` models a falsy
JavaScript `maxVideos` (the code guards it with `|| 1`). -/
structure Capabilities where
  supportsMultipleVideos : Bool
  maxVideos : Nat
  supportsConditioningImage : Bool
  supportsNegativePrompt : Bool
  supportedDurations : List Nat
  supportsResolution : Bool
  supportedResolutions : List String
  supportsFPS : Bool
  supportedFPS : List Nat
  deriving Repr, DecidableEq

/-- A provider descriptor, as read by the component
(`selectedProvider.*`).  `costPerSecond` is `pricing.costPerSecond`. -/
structure VideoProvider where
  id : String
  maxDuration : Nat
  supportedAspectRatios : List String
  costPerSecond : ℚ
  capabilities : Capabilities
  deriving Repr, DecidableEq

/-- The form fields touched by the reconciliation effect and the
generate handler.  `conditioningImage` holds the file name when a file
is attached. -/
@[ext]
structure FormState where
  provider : String
  prompt : String
  negativePrompt : String
  numberOfVideos : Nat
  aspectRatio : String
  durationSeconds : Nat
  conditioningImage : Option String
  veo3Model : String
  veo3Resolution : String
  veo3Audio : Bool
  deriving Repr, DecidableEq

/-- JavaScript `n || 1` on a number modelled as `Nat` (0 is the falsy
case, covering both `0` and an absent field). -/
def orOne (n : Nat) : Nat := if n = 0 then 1 else n

/-- The reconciliation pass: the body of the `React.useEffect` on
`selectedProvider` (src/lib/auth-client.ts lines 71-106).  Each
`set*(prev => ...)` updater becomes one field update; all read the same
`selectedProvider` and are independent of one another. -/
def reconcile (p : VideoProvider) (s : FormState) : FormState :=
  { s with
    numberOfVideos :=
      if ¬ p.capabilities.supportsMultipleVideos then 1
      else min (max 1 s.numberOfVideos) (orOne p.capabilities.maxVideos)
    conditioningImage :=
      if p.capabilities.supportsConditioningImage then s.conditioningImage
      else none
    negativePrompt :=
      if p.capabilities.supportsNegativePrompt then s.negativePrompt else ""
    aspectRatio :=
      if s.aspectRatio ∈ p.supportedAspectRatios then s.aspectRatio
      else p.supportedAspectRatios.headD "16:9"
    durationSeconds :=
      if 0 < p.capabilities.supportedDurations.length ∧
          s.durationSeconds ∉ p.capabilities.supportedDurations then
        p.capabilities.supportedDurations.headD 0
      else min s.durationSeconds p.maxDuration }

/-- Modelled from the spec: the `calculateCost` helper lives in the
`video-providers` module, which is not among the sources; the spec
states `estimate(provider, durationSeconds) = provider.costPerSecond ×
durationSeconds`. -/
def calculateCost (p : VideoProvider) (durationSeconds : Nat) : ℚ :=
  p.costPerSecond * durationSeconds

/-- `estimatedCostPerVideo` (src/lib/auth-client.ts lines 108-113): 0
when no provider is selected, otherwise `calculateCost`. -/
def estimatedCostPerVideo (p : Option VideoProvider) (durationSeconds : Nat) : ℚ :=
  match p with
  | none => 0
  | some p => calculateCost p durationSeconds

/-- `estimatedTotalCost` (src/lib/auth-client.ts lines 115-117):
per-video estimate times `Math.max(1, numberOfVideos)`. -/
def estimatedTotalCost (p : Option VideoProvider) (durationSeconds numberOfVideos : Nat) : ℚ :=
  estimatedCostPerVideo p durationSeconds * (max 1 numberOfVideos : Nat)

/-- JavaScript `String.prototype.trim`: drop whitespace from both ends.
`Char.isWhitespace` models the JavaScript whitespace class. -/
def trimStr (s : String) : String :=
  ⟨((s.data.dropWhile Char.isWhitespace).reverse.dropWhile Char.isWhitespace).reverse⟩

/-- Split a character list at every whitespace character.  Composed
with dropping the empty tokens this agrees with the JavaScript
`split(/\s+/).filter(Boolean)` of the source (splitting on a run of
whitespace instead of each character only inserts empty tokens, which
the filter removes). -/
def splitWsAux (cur : List Char) : List Char → List (List Char)
  | [] => [cur.reverse]
  | c :: rest =>
    if c.isWhitespace then cur.reverse :: splitWsAux [] rest
    else splitWsAux (c :: cur) rest

/-- Word count of the prompt (src/lib/auth-client.ts lines 120-121):
trim, split on whitespace, keep the non-empty tokens. -/
def wordCount (prompt : String) : Nat :=
  let trimmed := trimStr prompt
  if trimmed = "" then 0
  else ((splitWsAux [] trimmed.data).filter (fun w => w ≠ [])).length

/-- The `score` field of `promptInsights` (src/lib/auth-client.ts lines
119-160): the four quality tiers in order. -/
def promptScore (prompt : String) : Nat :=
  if wordCount prompt = 0 then 0
  else if wordCount prompt < 12 then 1
  else if wordCount prompt < 30 then 2
  else 3

/-- The `quality` label of `promptInsights`, one fixed string per tier. -/
def promptQuality (prompt : String) : String :=
  if wordCount prompt = 0 then "Add a descriptive prompt"
  else if wordCount prompt < 12 then "Needs more detail"
  else if wordCount prompt < 30 then "Great start"
  else "Production ready"

/-- `GenerationMeta` (src/lib/auth-client.ts lines 25-31); every field
but `provider` is optional in the TypeScript interface. -/
structure GenerationMeta where
  provider : String
  cost : Option ℚ
  startedAt : Option Nat
  completedAt : Option Nat
  error : Option String
  deriving Repr, DecidableEq

/-- The component state read and written by `handleGenerate`. -/
structure ComponentState where
  form : FormState
  isGenerating : Bool
  message : String
  videos : List String
  generationMeta : Option GenerationMeta
  deriving Repr, DecidableEq

/-- The JSON body of a generation response (`result`): `videos`,
`provider` and `cost` may each be absent. -/
structure GenResult where
  videos : Option (List String)
  provider : Option String
  cost : Option ℚ
  deriving Repr, DecidableEq

/-- How the awaited `fetch`/`json` round trip ends: an HTTP response
with a status code and parsed body, or a thrown value (network failure
or JSON parse error).  `isError` models `error instanceof Error`. -/
inductive FetchOutcome where
  | response (status : Nat) (result : GenResult)
  | thrown (isError : Bool) (msg : String)
  deriving Repr, DecidableEq

/-- `Response.ok` of the fetch API: status in the 2xx range. -/
def respOk (status : Nat) : Bool := 200 ≤ status && status < 300

/-- JavaScript truthiness of `result.cost`: absent and `0` are falsy. -/
def costTruthy (cost : Option ℚ) : Bool :=
  match cost with
  | none => false
  | some c => c ≠ 0

/-- JavaScript `a || b` on an optional string: absent and `""` are
falsy. -/
def orElseStr (a : Option String) (b : String) : String :=
  match a with
  | none => b
  | some "" => b
  | some s => s

/-- Models the `Intl.NumberFormat` USD formatter of
src/lib/auth-client.ts lines 33-39; the exact digit rendering is
immaterial to the claims, only which message branch is taken. -/
def formatCurrency (c : ℚ) : String := "$" ++ toString c.num ++ "/" ++ toString c.den

/-- The synchronous prefix of `handleGenerate` once the prompt guard
has passed (src/lib/auth-client.ts lines 252-257): busy flag, progress
message, cleared videos, fresh `GenerationMeta` with the start
timestamp. -/
def submitPhase (s : ComponentState) (startedAt : Nat) : ComponentState :=
  { s with
    isGenerating := true
    message := "Generating..."
    videos := []
    generationMeta := some
      { provider := s.form.provider, cost := none, startedAt := some startedAt
        completedAt := none, error := none } }

/-- The continuation of `handleGenerate` after the awaited round trip
(src/lib/auth-client.ts lines 283-311), including the `catch` and
`finally` blocks.  `provider` and `startedAt` are the values captured
by the closure at submit time. -/
def resolvePhase (s : ComponentState) (provider : String) (startedAt : Nat)
    (outcome : FetchOutcome) (completedAt : Nat) : ComponentState :=
  match outcome with
  | .response status result =>
    if respOk status then
      { s with
        isGenerating := false
        videos := result.videos.getD []
        generationMeta := some
          { provider := orElseStr result.provider provider
            cost := result.cost
            startedAt := some startedAt
            completedAt := some completedAt
            error := none }
        message :=
          match result.cost with
          | some c =>
            if c ≠ 0 then "Video generated successfully • " ++ formatCurrency c
            else "Video generated successfully!"
          | none => "Video generated successfully!" }
    else
      -- `!response.ok` throws `Error('Failed to generate video')`,
      -- landing in the catch block before `result.videos` is read.
      { s with
        isGenerating := false
        generationMeta := some
          { provider := provider, cost := none, startedAt := some startedAt
            completedAt := some completedAt
            error := some "Failed to generate video" }
        message := "Failed to generate video. Please try again." }
  | .thrown isError msg =>
      { s with
        isGenerating := false
        generationMeta := some
          { provider := provider, cost := none, startedAt := some startedAt
            completedAt := some completedAt
            error := some (if isError then msg else "Unknown error") }
        message := "Failed to generate video. Please try again." }

/-- `handleGenerate` (src/lib/auth-client.ts lines 246-312) as a state
transformer: the empty-prompt guard, then submit and resolution. -/
def handleGenerate (s : ComponentState) (outcome : FetchOutcome)
    (startedAt completedAt : Nat) : ComponentState :=
  if trimStr s.form.prompt = "" then
    { s with message := "Please enter a prompt before generating." }
  else
    resolvePhase (submitPhase s startedAt) s.form.provider startedAt outcome completedAt

/-- The multipart payload built by `handleGenerate`
(src/lib/auth-client.ts lines 260-276), as the ordered list of
`FormData.append` calls (key, stringified value; the conditioning image
by its file name). -/
def buildFormData (f : FormState) : List (String × String) :=
  [("prompt", f.prompt),
   ("negativePrompt", f.negativePrompt),
   ("numberOfVideos", toString f.numberOfVideos),
   ("aspectRatio", f.aspectRatio),
   ("durationSeconds", toString f.durationSeconds),
   ("provider", f.provider)]
  ++ (if f.provider = "veo-3" then
        [("veo3Model", f.veo3Model),
         ("veo3Resolution", f.veo3Resolution),
         ("veo3Audio", toString f.veo3Audio)]
      else [])
  ++ (match f.conditioningImage with
      | some img => [("conditioningImage", img)]
      | none => [])

/-- The guard of the "Actual cost" line (src/lib/auth-client.ts lines
732-744): the last-generation panel renders when `completedAt` is
truthy, and the cost line inside it when `generationMeta.cost` is
truthy. -/
def renderActualCostLine (meta : Option GenerationMeta) : Bool :=
  match meta with
  | none => false
  | some m => (match m.completedAt with | none => false | some t => t ≠ 0)
      && costTruthy m.cost

end VideoGen

namespace Proxy

/-- The decision of the route middleware: forward the request
(`NextResponse.next()`) or redirect it. -/
inductive Decision where
  | next
  | redirect (dest : String)
  deriving Repr, DecidableEq

/-- The session object read from the cookie cache; `user` is the
optional user marker (`session?.user`). -/
structure SessionData where
  user : Option String
  deriving Repr, DecidableEq

/-- JavaScript `String.prototype.startsWith`, character by character. -/
def strStartsWith (s pre : String) : Bool := pre.data.isPrefixOf s.data

/-- `isLoggedIn = !!session?.user` (src/proxy.ts line 7). -/
def isLoggedIn (session : Option SessionData) : Bool :=
  match session with
  | none => false
  | some s => s.user.isSome

/-- The `proxy` middleware (src/proxy.ts lines 5-30) as a function of
the request path and the cookie-cached session. -/
def proxy (path : String) (session : Option SessionData) : Decision :=
  if strStartsWith path "/auth/" || path == "/" || strStartsWith path "/api/auth/" then
    .next
  else if strStartsWith path "/api/generate-video" && !isLoggedIn session then
    .redirect "/auth/signin"
  else if !isLoggedIn session then
    .redirect "/auth/signin"
  else
    .next

end Proxy

namespace VideoGen

/-! Concrete fixtures used by counterexamples and witnesses. -/

/-- A capability set with every feature enabled and sane limits. -/
def capBase : Capabilities :=
  { supportsMultipleVideos := true, maxVideos := 4
    supportsConditioningImage := true, supportsNegativePrompt := true
    supportedDurations := [5, 8], supportsResolution := false
    supportedResolutions := [], supportsFPS := false, supportedFPS := [] }

/-- A well-behaved provider. -/
def providerBase : VideoProvider :=
  { id := "veo-3", maxDuration := 8, supportedAspectRatios := ["16:9", "9:16"]
    costPerSecond := 2, capabilities := capBase }

/-- A provider that declares multi-video support but a falsy
(`0`) `maxVideos`, the case the code guards with `|| 1`. -/
def providerMaxZero : VideoProvider :=
  { providerBase with capabilities := { capBase with maxVideos := 0 } }

/-- A single-video provider without image or negative-prompt support. -/
def providerSingle : VideoProvider :=
  { providerBase with
    capabilities :=
      { capBase with
        supportsMultipleVideos := false
        supportsConditioningImage := false
        supportsNegativePrompt := false } }

/-- A provider whose only declared discrete duration (10) exceeds its
own `maxDuration` (5). -/
def providerOsc : VideoProvider :=
  { providerBase with
    maxDuration := 5
    capabilities := { capBase with supportedDurations := [10] } }

/-- A filled-in form state. -/
def formBase : FormState :=
  { provider := "veo-3", prompt := "A sweeping dolly shot"
    negativePrompt := "no text overlays", numberOfVideos := 2
    aspectRatio := "16:9", durationSeconds := 3
    conditioningImage := some "ref.png", veo3Model := "veo3-fast"
    veo3Resolution := "720p", veo3Audio := true }

/-- `n || 1` is `max 1 n` on naturals. -/
theorem orOne_eq_max (n : Nat) : orOne n = max 1 n := by
  simp only [orOne]
  split <;> omega

/-- The default head of a non-empty list is its head, hence a member. -/
theorem headD_mem {α : Type} (l : List α) (d : α) (h : l ≠ []) : l.headD d ∈ l := by
  cases l with
  | nil => exact absurd rfl h
  | cons a t => simp [List.headD]

/-- C1, as the claim states it, fails on a provider that supports
multiple videos but declares `maxVideos = 0` (a falsy value the code
replaces by 1): the reconciled count is 1, which does not lie in
`[1, P.maxVideos] = [1, 0]`. -/
theorem reconcile_count_claim_cex :
    providerMaxZero.capabilities.supportsMultipleVideos = true ∧
    (reconcile providerMaxZero formBase).numberOfVideos = 1 ∧
    ¬ (reconcile providerMaxZero formBase).numberOfVideos ≤
        providerMaxZero.capabilities.maxVideos := by
  decide

/-- C1 (amended): after reconciliation against any provider the video
count lies in `[1, max 1 P.maxVideos]` (the code reads `maxVideos || 1`)
and is 1 when the provider does not support multiple videos, the aspect
ratio is a member of the supported list whenever that list is non-empty,
and the duration is a declared discrete duration or at most
`maxDuration`. -/
theorem reconcile_bounds (p : VideoProvider) (s : FormState) :
    (1 ≤ (reconcile p s).numberOfVideos ∧
      (reconcile p s).numberOfVideos ≤ max 1 p.capabilities.maxVideos) ∧
    (p.capabilities.supportsMultipleVideos = false →
      (reconcile p s).numberOfVideos = 1) ∧
    (p.supportedAspectRatios ≠ [] →
      (reconcile p s).aspectRatio ∈ p.supportedAspectRatios) ∧
    ((reconcile p s).durationSeconds ∈ p.capabilities.supportedDurations ∨
      (reconcile p s).durationSeconds ≤ p.maxDuration) := by
  refine ⟨⟨?_, ?_⟩, ?_, ?_, ?_⟩
  · simp only [reconcile]
    split
    · omega
    · have := orOne_eq_max p.capabilities.maxVideos
      omega
  · simp only [reconcile]
    split
    · omega
    · have := orOne_eq_max p.capabilities.maxVideos
      omega
  · intro h
    simp only [reconcile]
    split
    · rfl
    · rename_i hm
      rw [h] at hm
      simp at hm
  · intro h
    simp only [reconcile]
    split
    · assumption
    · exact headD_mem _ _ h
  · simp only [reconcile]
    split
    · rename_i h
      exact Or.inl (headD_mem _ _ (by
        intro hnil
        rw [hnil] at h
        simp at h))
    · exact Or.inr (Nat.min_le_right _ _)

/-- Witness for `reconcile_bounds` at a concrete provider and state. -/
theorem reconcile_bounds_witness :
    (reconcile providerSingle formBase).numberOfVideos = 1 ∧
    (reconcile providerSingle formBase).aspectRatio ∈
      providerSingle.supportedAspectRatios :=
  ⟨(reconcile_bounds providerSingle formBase).2.1 (by decide),
   (reconcile_bounds providerSingle formBase).2.2.1 (by decide)⟩

/-- The video-count component of the reconciliation pass. -/
theorem reconcile_count (p : VideoProvider) (s : FormState) :
    (reconcile p s).numberOfVideos =
      if ¬ p.capabilities.supportsMultipleVideos then 1
      else min (max 1 s.numberOfVideos) (orOne p.capabilities.maxVideos) := rfl

/-- The aspect-ratio component of the reconciliation pass. -/
theorem reconcile_aspect (p : VideoProvider) (s : FormState) :
    (reconcile p s).aspectRatio =
      if s.aspectRatio ∈ p.supportedAspectRatios then s.aspectRatio
      else p.supportedAspectRatios.headD "16:9" := rfl

/-- The duration component of the reconciliation pass. -/
theorem reconcile_duration (p : VideoProvider) (s : FormState) :
    (reconcile p s).durationSeconds =
      if 0 < p.capabilities.supportedDurations.length ∧
          s.durationSeconds ∉ p.capabilities.supportedDurations then
        p.capabilities.supportedDurations.headD 0
      else min s.durationSeconds p.maxDuration := rfl

/-- C2, as the claim states it, fails on a provider whose declared
discrete duration list contains a value above its `maxDuration`: with
`supportedDurations = [10]` and `maxDuration = 5` a duration of 3 goes
to 10 on the first pass and to `min 10 5 = 5` on the second, so a
second reconciliation changes the state again. -/
theorem reconcile_idem_cex :
    reconcile providerOsc (reconcile providerOsc formBase) ≠
      reconcile providerOsc formBase := by
  decide

/-- C2 (amended): the reconciliation pass is idempotent for every
provider whose declared discrete durations all lie within its own
`maxDuration` (every catalog provider is expected to satisfy this; the
code only oscillates when a declared duration exceeds the maximum). -/
theorem reconcile_idempotent (p : VideoProvider) (s : FormState)
    (h : ∀ d ∈ p.capabilities.supportedDurations, d ≤ p.maxDuration) :
    reconcile p (reconcile p s) = reconcile p s := by
  ext
  case provider => rfl
  case prompt => rfl
  case veo3Model => rfl
  case veo3Resolution => rfl
  case veo3Audio => rfl
  case negativePrompt =>
    by_cases hn : p.capabilities.supportsNegativePrompt <;> simp [reconcile, hn]
  case conditioningImage =>
    by_cases hi : p.capabilities.supportsConditioningImage <;> simp [reconcile, hi]
  case numberOfVideos =>
    have hx := orOne_eq_max p.capabilities.maxVideos
    by_cases hm : p.capabilities.supportsMultipleVideos
    · have e1 : (reconcile p s).numberOfVideos =
          min (max 1 s.numberOfVideos) (orOne p.capabilities.maxVideos) := by
        rw [reconcile_count, if_neg (by simp [hm])]
      conv_lhs => rw [reconcile_count]
      rw [e1, if_neg (by simp [hm])]
      omega
    · conv_lhs => rw [reconcile_count]
      rw [if_pos (by simp [hm]), reconcile_count, if_pos (by simp [hm])]
  case aspectRatio =>
    by_cases ha : s.aspectRatio ∈ p.supportedAspectRatios
    · have e1 : (reconcile p s).aspectRatio = s.aspectRatio := by
        rw [reconcile_aspect, if_pos ha]
      conv_lhs => rw [reconcile_aspect]
      rw [e1, if_pos ha]
    · have e1 : (reconcile p s).aspectRatio =
          p.supportedAspectRatios.headD "16:9" := by
        rw [reconcile_aspect, if_neg ha]
      conv_lhs => rw [reconcile_aspect]
      rw [e1]
      split <;> rfl
  case durationSeconds =>
    by_cases hlen : 0 < p.capabilities.supportedDurations.length
    · by_cases hd : s.durationSeconds ∈ p.capabilities.supportedDurations
      · have e1 : (reconcile p s).durationSeconds = s.durationSeconds := by
        -- with `d ≤ maxDuration` the clamp keeps a declared duration
          rw [reconcile_duration, if_neg (fun hc => hc.2 hd)]
          have := h _ hd
          omega
        conv_lhs => rw [reconcile_duration]
        rw [e1, if_neg (fun hc => hc.2 hd)]
        have := h _ hd
        omega
      · have hnil : p.capabilities.supportedDurations ≠ [] := by
          intro hc
          rw [hc] at hlen
          simp at hlen
        have hmem := headD_mem p.capabilities.supportedDurations 0 hnil
        have e1 : (reconcile p s).durationSeconds =
            p.capabilities.supportedDurations.headD 0 := by
          rw [reconcile_duration, if_pos ⟨hlen, hd⟩]
        conv_lhs => rw [reconcile_duration]
        rw [e1, if_neg (fun hc => hc.2 hmem)]
        have := h _ hmem
        omega
    · have e1 : (reconcile p s).durationSeconds =
          min s.durationSeconds p.maxDuration := by
        rw [reconcile_duration, if_neg (fun hc => hlen hc.1)]
      conv_lhs => rw [reconcile_duration]
      rw [e1, if_neg (fun hc => hlen hc.1)]
      omega

/-- Witness for `reconcile_idempotent` at a concrete provider whose
declared durations all respect its maximum. -/
theorem reconcile_idempotent_witness :
    reconcile providerBase (reconcile providerBase formBase) =
      reconcile providerBase formBase :=
  reconcile_idempotent providerBase formBase (by decide)

/-- C3: reconciliation clears the reference image exactly when the
provider does not support a conditioning image and preserves it
otherwise, and clears the negative prompt text exactly when negative
prompts are unsupported, preserving it otherwise. -/
theorem reconcile_image_negPrompt (p : VideoProvider) (s : FormState) :
    (p.capabilities.supportsConditioningImage = false →
      (reconcile p s).conditioningImage = none) ∧
    (p.capabilities.supportsConditioningImage = true →
      (reconcile p s).conditioningImage = s.conditioningImage) ∧
    (p.capabilities.supportsNegativePrompt = false →
      (reconcile p s).negativePrompt = "") ∧
    (p.capabilities.supportsNegativePrompt = true →
      (reconcile p s).negativePrompt = s.negativePrompt) := by
  refine ⟨fun h => ?_, fun h => ?_, fun h => ?_, fun h => ?_⟩ <;>
    simp [reconcile, h]

/-- Witness for `reconcile_image_negPrompt`: a provider without image
or negative-prompt support clears both; one with support keeps both. -/
theorem reconcile_image_negPrompt_witness :
    (reconcile providerSingle formBase).conditioningImage = none ∧
    (reconcile providerSingle formBase).negativePrompt = "" ∧
    (reconcile providerBase formBase).conditioningImage =
      formBase.conditioningImage ∧
    (reconcile providerBase formBase).negativePrompt =
      formBase.negativePrompt :=
  ⟨(reconcile_image_negPrompt providerSingle formBase).1 (by decide),
   (reconcile_image_negPrompt providerSingle formBase).2.2.1 (by decide),
   (reconcile_image_negPrompt providerBase formBase).2.1 (by decide),
   (reconcile_image_negPrompt providerBase formBase).2.2.2 (by decide)⟩

/-- C4: the per-video estimate is `costPerSecond × duration` (0 when no
provider is selected), the total multiplies by `max 1 n`, and for
`n ≥ 1` the total is exactly the per-video estimate times `n` — linear
in duration and count. -/
theorem cost_estimator_linear (p : VideoProvider) (d n : Nat) :
    estimatedCostPerVideo (some p) d = p.costPerSecond * d ∧
    estimatedTotalCost (some p) d n =
      estimatedCostPerVideo (some p) d * (max 1 n : Nat) ∧
    (1 ≤ n →
      estimatedTotalCost (some p) d n = estimatedCostPerVideo (some p) d * n) ∧
    estimatedCostPerVideo none d = 0 := by
  refine ⟨rfl, rfl, fun hn => ?_, rfl⟩
  rw [estimatedTotalCost, Nat.max_eq_right hn]

/-- Witness for `cost_estimator_linear` at a concrete provider,
duration 5 and count 2. -/
theorem cost_estimator_linear_witness :
    estimatedTotalCost (some providerBase) 5 2 =
      estimatedCostPerVideo (some providerBase) 5 * 2 :=
  (cost_estimator_linear providerBase 5 2).2.2.1 (by decide)

/-- C5: the prompt-quality heuristic is a pure function of the trimmed,
whitespace-split word count, assigning the four ordered tiers at the
fixed thresholds 0, 1-11, 12-29 and ≥ 30, and the tier is monotone
non-decreasing in the word count. -/
theorem promptInsights_tiers (s t : String) :
    (wordCount s = 0 →
      promptScore s = 0 ∧ promptQuality s = "Add a descriptive prompt") ∧
    (1 ≤ wordCount s → wordCount s ≤ 11 →
      promptScore s = 1 ∧ promptQuality s = "Needs more detail") ∧
    (12 ≤ wordCount s → wordCount s ≤ 29 →
      promptScore s = 2 ∧ promptQuality s = "Great start") ∧
    (30 ≤ wordCount s →
      promptScore s = 3 ∧ promptQuality s = "Production ready") ∧
    (wordCount s ≤ wordCount t → promptScore s ≤ promptScore t) := by
  refine ⟨fun h0 => ?_, fun h1 h2 => ?_, fun h1 h2 => ?_, fun h1 => ?_,
    fun hle => ?_⟩
  · simp [promptScore, promptQuality, h0]
  · constructor <;>
      · simp only [promptScore, promptQuality]
        split_ifs <;> first | rfl | (exfalso; omega)
  · constructor <;>
      · simp only [promptScore, promptQuality]
        split_ifs <;> first | rfl | (exfalso; omega)
  · constructor <;>
      · simp only [promptScore, promptQuality]
        split_ifs <;> first | rfl | (exfalso; omega)
  · simp only [promptScore]
    split_ifs <;> omega

/-- Witness for `promptInsights_tiers`: a 3-word prompt sits in the
second tier and scores no higher than a 13-word prompt. -/
theorem promptInsights_tiers_witness :
    promptScore "a cat by a window" = 1 ∧
    promptQuality "a cat by a window" = "Needs more detail" ∧
    promptScore "a cat by a window" ≤
      promptScore "a ginger cat sleeping on a sunlit windowsill while rain streaks the glass outside" := by
  refine ⟨?_, ?_, ?_⟩
  · exact ((promptInsights_tiers "a cat by a window" "x").2.1 (by decide)
      (by decide)).1
  · exact ((promptInsights_tiers "a cat by a window" "x").2.1 (by decide)
      (by decide)).2
  · exact (promptInsights_tiers "a cat by a window"
      "a ginger cat sleeping on a sunlit windowsill while rain streaks the glass outside").2.2.2.2
      (by decide)

/-- An idle component state whose prompt is only whitespace. -/
def stateBlankPrompt : ComponentState :=
  { form := { formBase with prompt := "   " }, isGenerating := false
    message := "", videos := ["old.mp4"]
    generationMeta := some
      { provider := "luma", cost := some 1, startedAt := some 2
        completedAt := some 3, error := none } }

/-- An idle component state with a non-empty prompt. -/
def stateReady : ComponentState :=
  { form := formBase, isGenerating := false, message := ""
    videos := ["old.mp4"]
    generationMeta := some
      { provider := "luma", cost := some 1, startedAt := some 2
        completedAt := some 3, error := none } }

/-- C6: when the prompt trims to the empty string, `handleGenerate`
only sets the prompt-required message: for every network outcome the
result equals the input state with just `message` replaced, so
`isGenerating`, the videos, the generation metadata and the form are
untouched and no request effect is observable. -/
theorem handleGenerate_emptyPrompt (s : ComponentState) (o : FetchOutcome)
    (t₁ t₂ : Nat) (h : trimStr s.form.prompt = "") :
    handleGenerate s o t₁ t₂ =
      { s with message := "Please enter a prompt before generating." } ∧
    (handleGenerate s o t₁ t₂).isGenerating = s.isGenerating ∧
    (handleGenerate s o t₁ t₂).videos = s.videos ∧
    (handleGenerate s o t₁ t₂).generationMeta = s.generationMeta ∧
    (handleGenerate s o t₁ t₂).form = s.form := by
  have e : handleGenerate s o t₁ t₂ =
      { s with message := "Please enter a prompt before generating." } := by
    rw [handleGenerate, if_pos h]
  exact ⟨e, by rw [e], by rw [e], by rw [e], by rw [e]⟩

/-- Witness for `handleGenerate_emptyPrompt` on a whitespace prompt. -/
theorem handleGenerate_emptyPrompt_witness :
    handleGenerate stateBlankPrompt (.thrown true "boom") 100 200 =
      { stateBlankPrompt with
        message := "Please enter a prompt before generating." } :=
  (handleGenerate_emptyPrompt stateBlankPrompt (.thrown true "boom") 100 200
    (by decide)).1

/-- C7: every non-2xx response is handled uniformly — the result state
does not depend on the particular status code or body: the metadata is
replaced by a failed record holding the provider id, the start and
completion timestamps and the error message, the failure message is
shown, and `isGenerating` is reset to false. -/
theorem handleGenerate_non2xx (s : ComponentState) (status : Nat)
    (result : GenResult) (t₁ t₂ : Nat)
    (hp : ¬ trimStr s.form.prompt = "") (hok : respOk status = false) :
    handleGenerate s (.response status result) t₁ t₂ =
      { s with
        isGenerating := false
        videos := []
        message := "Failed to generate video. Please try again."
        generationMeta := some
          { provider := s.form.provider, cost := none, startedAt := some t₁
            completedAt := some t₂
            error := some "Failed to generate video" } } := by
  rw [handleGenerate, if_neg hp]
  simp [submitPhase, resolvePhase, hok]

/-- Witness for `handleGenerate_non2xx` on a concrete 500 response. -/
theorem handleGenerate_non2xx_witness :
    handleGenerate stateReady (.response 500 ⟨none, none, none⟩) 100 200 =
      { stateReady with
        isGenerating := false
        videos := []
        message := "Failed to generate video. Please try again."
        generationMeta := some
          { provider := stateReady.form.provider, cost := none
            startedAt := some 100, completedAt := some 200
            error := some "Failed to generate video" } } :=
  handleGenerate_non2xx stateReady 500 ⟨none, none, none⟩ 100 200
    (by decide) (by decide)

/-- C9: the multipart payload consists of exactly the six base fields,
then the three veo-3 sub-options precisely when the selected provider
is `veo-3`, then the conditioning image precisely when one is attached;
in particular no `resolution` or `fps` key is ever sent. -/
theorem formData_fields (f : FormState) :
    (buildFormData f).map Prod.fst =
      ["prompt", "negativePrompt", "numberOfVideos", "aspectRatio",
        "durationSeconds", "provider"]
      ++ (if f.provider = "veo-3" then
            ["veo3Model", "veo3Resolution", "veo3Audio"]
          else [])
      ++ (if f.conditioningImage.isSome then ["conditioningImage"] else []) ∧
    "resolution" ∉ (buildFormData f).map Prod.fst ∧
    "fps" ∉ (buildFormData f).map Prod.fst := by
  have e : (buildFormData f).map Prod.fst =
      ["prompt", "negativePrompt", "numberOfVideos", "aspectRatio",
        "durationSeconds", "provider"]
      ++ (if f.provider = "veo-3" then
            ["veo3Model", "veo3Resolution", "veo3Audio"]
          else [])
      ++ (if f.conditioningImage.isSome then ["conditioningImage"] else []) := by
    rw [buildFormData]
    rcases f.conditioningImage with _ | img <;>
      by_cases hv : f.provider = "veo-3" <;>
      simp [hv]
  refine ⟨e, ?_, ?_⟩ <;>
    · rw [e]
      rcases f.conditioningImage with _ | img <;>
        by_cases hv : f.provider = "veo-3" <;>
        simp [hv]

/-- C10: after a successful (2xx) response the recorded metadata keeps
the reported cost verbatim; a reported cost of exactly 0 is stored as 0
yet yields the plain success message and no rendered "Actual cost"
line, while a nonzero reported cost yields the currency-formatted
message and (once a completion timestamp exists) a rendered cost
line — and an absent cost also yields the plain message. -/
theorem success_cost_truthiness (s : ComponentState) (status : Nat)
    (result : GenResult) (t₁ t₂ : Nat)
    (hp : ¬ trimStr s.form.prompt = "") (hok : respOk status = true) :
    ((handleGenerate s (.response status result) t₁ t₂).generationMeta =
      some { provider := orElseStr result.provider s.form.provider
             cost := result.cost, startedAt := some t₁
             completedAt := some t₂, error := none }) ∧
    (result.cost = some 0 →
      (handleGenerate s (.response status result) t₁ t₂).message =
        "Video generated successfully!" ∧
      renderActualCostLine
        (handleGenerate s (.response status result) t₁ t₂).generationMeta =
        false) ∧
    (result.cost = none →
      (handleGenerate s (.response status result) t₁ t₂).message =
        "Video generated successfully!") ∧
    (∀ c : ℚ, result.cost = some c → ¬ c = 0 →
      (handleGenerate s (.response status result) t₁ t₂).message =
        "Video generated successfully • " ++ formatCurrency c ∧
      (¬ t₂ = 0 →
        renderActualCostLine
          (handleGenerate s (.response status result) t₁ t₂).generationMeta =
          true)) := by
  have e : handleGenerate s (.response status result) t₁ t₂ =
      { s with
        isGenerating := false
        videos := result.videos.getD []
        generationMeta := some
          { provider := orElseStr result.provider s.form.provider
            cost := result.cost
            startedAt := some t₁
            completedAt := some t₂
            error := none }
        message :=
          match result.cost with
          | some c =>
            if c ≠ 0 then "Video generated successfully • " ++ formatCurrency c
            else "Video generated successfully!"
          | none => "Video generated successfully!" } := by
    rw [handleGenerate, if_neg hp]
    simp [submitPhase, resolvePhase, hok]
  refine ⟨by rw [e], fun hc => ⟨?_, ?_⟩, fun hc => ?_, fun c hc hcne => ⟨?_, fun ht => ?_⟩⟩
  · rw [e]
    simp [hc]
  · rw [e]
    simp [renderActualCostLine, costTruthy, hc]
  · rw [e]
    simp [hc]
  · rw [e]
    simp [hc, hcne]
  · rw [e]
    simp [renderActualCostLine, costTruthy, hc, hcne, ht]

/-- A successful response reporting a zero cost. -/
def resultZero : GenResult :=
  { videos := some ["a.mp4"], provider := some "veo-3", cost := some 0 }

/-- Witness for `success_cost_truthiness`: a 200 response with cost 0
stores cost 0, shows the plain success message, and renders no cost
line. -/
theorem success_cost_truthiness_witness :
    ((handleGenerate stateReady (.response 200 resultZero) 100 200).generationMeta =
      some { provider := orElseStr resultZero.provider stateReady.form.provider
             cost := resultZero.cost, startedAt := some 100
             completedAt := some 200, error := none }) ∧
    (handleGenerate stateReady (.response 200 resultZero) 100 200).message =
      "Video generated successfully!" ∧
    renderActualCostLine
      (handleGenerate stateReady (.response 200 resultZero) 100 200).generationMeta =
      false :=
  ⟨(success_cost_truthiness stateReady 200 resultZero 100 200
      (by decide) (by decide)).1,
   ((success_cost_truthiness stateReady 200 resultZero 100 200
      (by decide) (by decide)).2.1 (by decide)).1,
   ((success_cost_truthiness stateReady 200 resultZero 100 200
      (by decide) (by decide)).2.1 (by decide)).2⟩

end VideoGen

namespace Proxy

/-- C8: a request whose path is the root, or starts with `/auth/` or
`/api/auth/`, passes through regardless of session; any other request
is redirected to `/auth/signin` when there is no logged-in session and
passes through when there is one. -/
theorem proxy_route_gate (path : String) (session : Option SessionData) :
    ((strStartsWith path "/auth/" = true ∨ path = "/" ∨
        strStartsWith path "/api/auth/" = true) →
      proxy path session = .next) ∧
    (strStartsWith path "/auth/" = false → ¬ path = "/" →
      strStartsWith path "/api/auth/" = false → isLoggedIn session = false →
      proxy path session = .redirect "/auth/signin") ∧
    (strStartsWith path "/auth/" = false → ¬ path = "/" →
      strStartsWith path "/api/auth/" = false → isLoggedIn session = true →
      proxy path session = .next) := by
  refine ⟨fun h => ?_, fun h1 h2 h3 h4 => ?_, fun h1 h2 h3 h4 => ?_⟩
  · rcases h with h | h | h
    · simp [proxy, h]
    · simp [proxy, h]
    · simp [proxy, h]
  · have h2' : (path == "/") = false := beq_eq_false_iff_ne.mpr h2
    simp [proxy, h1, h2', h3, h4]
  · have h2' : (path == "/") = false := beq_eq_false_iff_ne.mpr h2
    simp [proxy, h1, h2', h3, h4]

/-- Witness for `proxy_route_gate`: an unauthenticated request to
`/studio` is redirected to the sign-in path, `/` passes through, and a
logged-in request to `/studio` passes through. -/
theorem proxy_route_gate_witness :
    proxy "/studio" none = .redirect "/auth/signin" ∧
    proxy "/" none = .next ∧
    proxy "/studio" (some { user := some "u" }) = .next :=
  ⟨(proxy_route_gate "/studio" none).2.1 (by decide) (by decide) (by decide)
      (by decide),
   (proxy_route_gate "/" none).1 (Or.inr (Or.inl rfl)),
   (proxy_route_gate "/studio" (some { user := some "u" })).2.2 (by decide)
      (by decide) (by decide) (by decide)⟩

end Proxy
